import Mathlib

/-!
Verification development for the YouTube comment-sentiment analysis system.

The Python source is shallowly embedded: Python `dict`s (ordered, insertion
order preserving, as of CPython 3.7) become association lists with unique
keys; timestamps become integers counting seconds; `timedelta.days` becomes
flooring division by 86400; fallible calls become `Except`; the mutable
storage becomes explicit state passing.
-/

set_option autoImplicit false

universe u v

/-! ## Python-dict model: association lists in insertion order -/

section Dict

variable {K : Type u} {V : Type v} [DecidableEq K]

/-- First value bound to key `k`, scanning in insertion order
(Python `d[k]` / `d.get(k)`). -/
def lookupKey : List (K × V) → K → Option V
  | [], _ => none
  | (k', v) :: rest, k => if k' = k then some v else lookupKey rest k

/-- `k in d` for a Python dict. -/
def hasKey (d : List (K × V)) (k : K) : Bool :=
  (lookupKey d k).isSome

/-- `d[k] = v` on a Python dict: replace the value in place when the key is
present (keeping its position in insertion order), otherwise append at the
end. -/
def dictInsert : List (K × V) → K → V → List (K × V)
  | [], k, v => [(k, v)]
  | (k', v') :: rest, k, v =>
    if k' = k then (k, v) :: rest else (k', v') :: dictInsert rest k v

/-- The keys of a Python dict are pairwise distinct. -/
def keysNodup (d : List (K × V)) : Prop :=
  (d.map Prod.fst).Nodup

theorem hasKey_iff_mem_keys (d : List (K × V)) (k : K) :
    hasKey d k = true ↔ k ∈ d.map Prod.fst := by
  induction d with
  | nil => simp [hasKey, lookupKey]
  | cons p rest ih =>
    obtain ⟨k₀, v₀⟩ := p
    by_cases h₀ : k₀ = k
    · simp [hasKey, lookupKey, h₀]
    · simpa [hasKey, lookupKey, h₀, Ne.symm h₀] using ih

theorem mem_keys_dictInsert (d : List (K × V)) (k a : K) (v : V) :
    a ∈ (dictInsert d k v).map Prod.fst ↔ a = k ∨ a ∈ d.map Prod.fst := by
  induction d with
  | nil => simp [dictInsert]
  | cons p rest ih =>
    obtain ⟨k₀, v₀⟩ := p
    by_cases h₀ : k₀ = k
    · subst h₀
      have heq : dictInsert ((k₀, v₀) :: rest) k₀ v = (k₀, v) :: rest := by
        simp [dictInsert]
      rw [heq]
      simp only [List.map_cons, List.mem_cons]
      tauto
    · have heq : dictInsert ((k₀, v₀) :: rest) k v
          = (k₀, v₀) :: dictInsert rest k v := by
        simp [dictInsert, h₀]
      rw [heq]
      simp only [List.map_cons, List.mem_cons, ih]
      tauto

theorem lookupKey_dictInsert_self (d : List (K × V)) (k : K) (v : V) :
    lookupKey (dictInsert d k v) k = some v := by
  induction d with
  | nil => simp [dictInsert, lookupKey]
  | cons p rest ih =>
    obtain ⟨k₀, v₀⟩ := p
    by_cases h : k₀ = k
    · simp [dictInsert, lookupKey, h]
    · simp [dictInsert, lookupKey, h, ih]

theorem lookupKey_dictInsert_ne (d : List (K × V)) (k k' : K) (v : V)
    (h : k' ≠ k) : lookupKey (dictInsert d k v) k' = lookupKey d k' := by
  have hne : ¬ k = k' := fun hh => h hh.symm
  induction d with
  | nil => simp [dictInsert, lookupKey, hne]
  | cons p rest ih =>
    obtain ⟨k₀, v₀⟩ := p
    by_cases h₀ : k₀ = k
    · subst h₀
      simp [dictInsert, lookupKey, hne]
    · have heq : dictInsert ((k₀, v₀) :: rest) k v
          = (k₀, v₀) :: dictInsert rest k v := by
        simp [dictInsert, h₀]
      rw [heq]
      by_cases h₁ : k₀ = k'
      · simp [lookupKey, h₁]
      · simp [lookupKey, h₁, ih]

theorem length_dictInsert_of_hasKey (d : List (K × V)) (k : K) (v : V)
    (h : hasKey d k) : (dictInsert d k v).length = d.length := by
  induction d with
  | nil => simp [hasKey, lookupKey] at h
  | cons p rest ih =>
    obtain ⟨k₀, v₀⟩ := p
    by_cases h₀ : k₀ = k
    · simp [dictInsert, h₀]
    · have h' : hasKey rest k := by simpa [hasKey, lookupKey, h₀] using h
      simp [dictInsert, h₀, ih h']

theorem length_dictInsert_of_not_hasKey (d : List (K × V)) (k : K) (v : V)
    (h : ¬ hasKey d k) : (dictInsert d k v).length = d.length + 1 := by
  induction d with
  | nil => simp [dictInsert]
  | cons p rest ih =>
    obtain ⟨k₀, v₀⟩ := p
    by_cases h₀ : k₀ = k
    · simp [hasKey, lookupKey, h₀] at h
    · have h' : ¬ hasKey rest k := by
        intro hc; exact h (by simpa [hasKey, lookupKey, h₀] using hc)
      simp [dictInsert, h₀, ih h']

theorem length_dictInsert_le (d : List (K × V)) (k : K) (v : V) :
    (dictInsert d k v).length ≤ d.length + 1 := by
  by_cases h : hasKey d k
  · rw [length_dictInsert_of_hasKey d k v h]; omega
  · rw [length_dictInsert_of_not_hasKey d k v h]

theorem keysNodup_dictInsert (d : List (K × V)) (k : K) (v : V)
    (h : keysNodup d) : keysNodup (dictInsert d k v) := by
  induction d with
  | nil => simp [dictInsert, keysNodup]
  | cons p rest ih =>
    obtain ⟨k₀, v₀⟩ := p
    unfold keysNodup at h
    simp only [List.map_cons, List.nodup_cons] at h
    obtain ⟨hmem, hrest⟩ := h
    by_cases h₀ : k₀ = k
    · subst h₀
      have : dictInsert ((k₀, v₀) :: rest) k₀ v = (k₀, v) :: rest := by
        simp [dictInsert]
      rw [this]
      unfold keysNodup
      simp only [List.map_cons, List.nodup_cons]
      exact ⟨hmem, hrest⟩
    · have : dictInsert ((k₀, v₀) :: rest) k v
          = (k₀, v₀) :: dictInsert rest k v := by
        simp [dictInsert, h₀]
      rw [this]
      unfold keysNodup
      simp only [List.map_cons, List.nodup_cons]
      refine ⟨?_, ih hrest⟩
      intro hmem'
      rcases (mem_keys_dictInsert rest k k₀ v).mp hmem' with rfl | hmem₂
      · exact h₀ rfl
      · exact hmem hmem₂

theorem lookupKey_eq_none_iff (d : List (K × V)) (k : K) :
    lookupKey d k = none ↔ ¬ hasKey d k := by
  unfold hasKey
  cases lookupKey d k <;> simp

theorem not_hasKey_of_nodup_cons (k₀ : K) (v₀ : V) (rest : List (K × V))
    (h : keysNodup ((k₀, v₀) :: rest)) : ¬ hasKey rest k₀ := by
  unfold keysNodup at h
  simp only [List.map_cons, List.nodup_cons] at h
  intro hc
  exact h.1 ((hasKey_iff_mem_keys rest k₀).mp hc)

end Dict

/-! ## ReanalysisPolicy: `YTVideo.needs_reanalysis` and
`YTComment.needs_reanalysis`
(src/storage/sqlite_storage/models/yt_video.py,
 src/storage/sqlite_storage/models/yt_comment.py)

Timestamps are integers counting seconds. Python `timedelta.days` is the
floor of the total duration divided by one day (86400 s), also for negative
durations. -/

/-- `timedelta.days` of a duration given in seconds. -/
def timedeltaDays (seconds : Int) : Int :=
  Int.fdiv seconds 86400

/-- A stored video record (sqlite model `YTVideo`; the file backend's
`FileVideo` has the same fields). -/
structure YTVideo where
  id : String
  title : String
  description : String
  published_at : Int
  channel_id : String
  view_count : Int
  like_count : Int
  comment_count : Int
  last_analyzed_at : Option Int
  deriving Repr, DecidableEq

/-- `YTVideo.needs_reanalysis(max_age_days, force_recent_days)`; the Python
method reads the clock itself (`datetime.now`), passed here as `now`. -/
def YTVideo.needs_reanalysis (v : YTVideo) (now : Int)
    (max_age_days : Int) (force_recent_days : Int) : Bool :=
  match v.last_analyzed_at with
  | none => true
  | some last =>
    let video_age_days := timedeltaDays (now - v.published_at)
    let time_since_analysis_days := timedeltaDays (now - last)
    if video_age_days ≤ force_recent_days then true
    else decide (time_since_analysis_days ≥ max_age_days)

/-- A stored comment record (sqlite model `YTComment`). -/
structure YTComment where
  comment_id : String
  video_id : String
  text : String
  author : String
  author_id : String
  likes : Int
  published_at : Option Int
  updated_at : Option Int
  last_analyzed_at : Option Int
  deriving Repr, DecidableEq

/-- A Python return value that is either an actual `bool` or `None`
(`x and y` yields `x` itself when `x` is falsy). -/
inductive PyRet where
  | bool (b : Bool)
  | pyNone
  deriving Repr, DecidableEq

/-- `YTComment.needs_reanalysis`.  The Python body is
`return self.updated_at and self.updated_at > self.last_analyzed_at`:
when `updated_at` is `None` the `and` short-circuits and the method
returns `None`, not `False`. -/
def YTComment.needs_reanalysis (c : YTComment) : PyRet :=
  match c.last_analyzed_at with
  | none => .bool true
  | some last =>
    match c.updated_at with
    | none => .pyNone
    | some upd => .bool (decide (upd > last))

/-! ## BoundedCache: `YouTubeAPI._add_to_cache`
(src/youtube_wrapper/youtube_api.py, lines 312-324) -/

section Cache

variable {K : Type u} {V : Type v} [DecidableEq K]

/-- `YouTubeAPI._add_to_cache(cache_dict, key, value)`.  `cache_dict` is
`none` when the cache was initialized disabled (Python `None`).  When the
dict holds `max_cache_items` or more entries the first-inserted key is
deleted (`next(iter(cache_dict))` on a CPython 3.7+ dict is the oldest
key; a dict reaching that branch is nonempty whenever
`max_cache_items ≥ 1`), then the new binding is stored. -/
def add_to_cache (use_cache : Bool) (max_cache_items : Nat)
    (cache_dict : Option (List (K × V))) (key : K) (value : V) :
    Option (List (K × V)) :=
  if use_cache = false then cache_dict
  else
    match cache_dict with
    | none => none
    | some d =>
      let d' := if d.length ≥ max_cache_items then d.drop 1 else d
      some (dictInsert d' key value)

/-- Run a sequence of `_add_to_cache` insertions on an enabled cache,
starting from a given dict. -/
def cacheRun (max_cache_items : Nat) (start : List (K × V))
    (ops : List (K × V)) : List (K × V) :=
  ops.foldl
    (fun d kv =>
      (add_to_cache true max_cache_items (some d) kv.1 kv.2).getD []) start

end Cache

/-! ## Storage records and input dictionaries -/

/-- A stored channel record (sqlite model `YTChannel`). -/
structure YTChannel where
  id : String
  name : String
  custom_url : Option String
  subscriber_count : Option Int
  video_count : Option Int
  view_count : Option Int
  published_at : Option Int
  country : Option String
  uploads_playlist_id : Option String
  deriving Repr, DecidableEq

/-- A stored playlist record (sqlite model `YTPlaylist`). -/
structure YTPlaylist where
  id : String
  title : String
  channel_id : String
  published_at : Option Int
  video_count : Int
  deriving Repr, DecidableEq

/-- A stored sentiment record (sqlite model `Sentiment`).  The score is an
opaque payload here (the source stores a float but never computes with it;
no claim depends on score arithmetic). -/
structure Sentiment where
  comment_id : String
  label : String
  score : Int
  last_analyzed_at : Option Int
  deriving Repr, DecidableEq

/-- The `video_data` dictionary handed to `save_video`.  The pipeline always
supplies every field, so the `dict.get` defaults are inlined. -/
structure VideoData where
  id : String
  title : String
  description : String
  published_at : Int
  channel_id : String
  view_count : Int
  like_count : Int
  comment_count : Int
  deriving Repr, DecidableEq

/-- The `channel_data` dictionary handed to `save_channel`; optional fields
are `dict.get` lookups defaulting to `None`. -/
structure ChannelData where
  id : String
  name : String
  custom_url : Option String
  subscriber_count : Option Int
  video_count : Option Int
  view_count : Option Int
  published_at : Option Int
  country : Option String
  uploads_playlist_id : Option String
  deriving Repr, DecidableEq

/-- The `playlist_data` dictionary handed to `save_playlist`.  `channel_id`
is an `Option` because the source checks `'channel_id' not in playlist_data`
before using it. -/
structure PlaylistData where
  id : String
  title : Option String
  channel_id : Option String
  published_at : Option Int
  video_count : Option Int
  deriving Repr, DecidableEq

/-- One comment dictionary built by `CommentAnalysisTask._fetch_comments`
and consumed by `save_comments`. -/
structure CommentInput where
  comment_id : String
  text : String
  author : String
  author_id : String
  likes : Int
  published_at : Option Int
  updated_at : Option Int
  deriving Repr, DecidableEq

/-- One sentiment dictionary built by `CommentAnalysisTask._analyze_sentiment`
and consumed by `save_sentiment_results`. -/
structure SentimentInput where
  comment_id : String
  label : String
  score : Int
  deriving Repr, DecidableEq

/-! ## SQLiteStorage (src/storage/sqlite_storage/sqlite_storage.py)

Each table keyed by its primary key, in insertion order.  Every `save_*`
method overwrites all non-key attributes of the fetched-or-created row and
commits, i.e. an upsert by primary key. -/

/-- The persisted state of the sqlite backend. -/
structure SQLiteDB where
  videos : List (String × YTVideo)
  comments : List (String × YTComment)
  sentiments : List (String × Sentiment)
  channels : List (String × YTChannel)
  playlists : List (String × YTPlaylist)
  deriving Repr, DecidableEq

/-- The empty database (fresh `Base.metadata.create_all`). -/
def SQLiteDB.empty : SQLiteDB :=
  ⟨[], [], [], [], []⟩

/-- Row written by `SQLiteStorage.save_video` (all attributes overwritten,
`update_analyzed_at` stamps the current time). -/
def mkVideoRow (video_data : VideoData) (now : Int) : YTVideo :=
  { id := video_data.id
    title := video_data.title
    description := video_data.description
    published_at := video_data.published_at
    channel_id := video_data.channel_id
    view_count := video_data.view_count
    like_count := video_data.like_count
    comment_count := video_data.comment_count
    last_analyzed_at := some now }

/-- `SQLiteStorage.save_video`. -/
def SQLiteStorage.save_video (db : SQLiteDB) (video_data : VideoData)
    (now : Int) : SQLiteDB × YTVideo :=
  let video := mkVideoRow video_data now
  ({ db with videos := dictInsert db.videos video_data.id video }, video)

/-- Row written by `SQLiteStorage.save_comments` for one batch entry:
`video_id` and `last_analyzed_at` are stamped, everything else comes from
the dictionary. -/
def mkCommentRow (comment_data : CommentInput) (video_id : String)
    (now : Int) : YTComment :=
  { comment_id := comment_data.comment_id
    video_id := video_id
    text := comment_data.text
    author := comment_data.author
    author_id := comment_data.author_id
    likes := comment_data.likes
    published_at := comment_data.published_at
    updated_at := comment_data.updated_at
    last_analyzed_at := some now }

/-- `SQLiteStorage.save_comments(comments, video_id)`: upsert every entry by
`comment_id`, then commit the batch. -/
def SQLiteStorage.save_comments (db : SQLiteDB)
    (comments : List CommentInput) (video_id : String) (now : Int) :
    SQLiteDB × List YTComment :=
  (comments.foldl
      (fun acc comment_data =>
        { acc with
          comments := dictInsert acc.comments comment_data.comment_id
            (mkCommentRow comment_data video_id now) }) db,
    comments.map (fun comment_data => mkCommentRow comment_data video_id now))

/-- `SQLiteStorage.save_sentiment_results`. -/
def SQLiteStorage.save_sentiment_results (db : SQLiteDB)
    (results : List SentimentInput) (now : Int) :
    SQLiteDB × List Sentiment :=
  (results.foldl
      (fun acc result =>
        { acc with
          sentiments := dictInsert acc.sentiments result.comment_id
            ⟨result.comment_id, result.label, result.score, some now⟩ }) db,
    results.map (fun r => ⟨r.comment_id, r.label, r.score, some now⟩))

/-- `SQLiteStorage.save_channel`. -/
def SQLiteStorage.save_channel (db : SQLiteDB)
    (channel_data : ChannelData) : SQLiteDB × YTChannel :=
  let channel : YTChannel :=
    { id := channel_data.id
      name := channel_data.name
      custom_url := channel_data.custom_url
      subscriber_count := channel_data.subscriber_count
      video_count := channel_data.video_count
      view_count := channel_data.view_count
      published_at := channel_data.published_at
      country := channel_data.country
      uploads_playlist_id := channel_data.uploads_playlist_id }
  ({ db with channels := dictInsert db.channels channel_data.id channel },
    channel)

/-- `SQLiteStorage.save_playlist`: `ValueError` when the `channel_id` key is
missing or no such channel row exists; the error is raised before any write,
so the state is returned unchanged only through the caller keeping its old
`db`. -/
def SQLiteStorage.save_playlist (db : SQLiteDB)
    (playlist_data : PlaylistData) :
    Except String (SQLiteDB × YTPlaylist) :=
  match playlist_data.channel_id with
  | none => .error "channel_id is required for saving a playlist"
  | some cid =>
    match lookupKey db.channels cid with
    | none => .error ("Channel with ID " ++ cid ++ " does not exist")
    | some _ =>
      let playlist : YTPlaylist :=
        { id := playlist_data.id
          title := playlist_data.title.getD ""
          channel_id := cid
          published_at := playlist_data.published_at
          video_count := playlist_data.video_count.getD 0 }
      .ok ({ db with
              playlists := dictInsert db.playlists playlist_data.id playlist },
            playlist)

/-- `SQLiteStorage.get_video`. -/
def SQLiteStorage.get_video (db : SQLiteDB) (video_id : String) :
    Option YTVideo :=
  lookupKey db.videos video_id

/-- `SQLiteStorage.get_video_comments`: all comment rows whose `video_id`
column matches. -/
def SQLiteStorage.get_video_comments (db : SQLiteDB) (video_id : String) :
    List YTComment :=
  (db.comments.filter (fun p => p.2.video_id = video_id)).map Prod.snd

/-- `SQLiteStorage.get_comment_sentiment`. -/
def SQLiteStorage.get_comment_sentiment (db : SQLiteDB)
    (comment_id : String) : Option Sentiment :=
  lookupKey db.sentiments comment_id

/-! ## FileStorage (src/storage/file_storage/file_storage.py)

One directory per video; the state maps a `video_id` to the contents of its
`_info.json` / `_comments.json` / `_sentiment.json` files.  The record
shapes (`FileVideo`, `FileComment`, `FileSentiment`) carry the same fields
as the sqlite rows, so the row types are reused. -/

/-- The persisted state of the file backend. -/
structure FileDB where
  infoFiles : List (String × YTVideo)
  commentsFiles : List (String × List YTComment)
  sentimentFiles : List (String × List Sentiment)
  deriving Repr, DecidableEq

/-- An empty base directory. -/
def FileDB.empty : FileDB :=
  ⟨[], [], []⟩

/-- `FileStorage.save_video`: write `{id}_info.json`. -/
def FileStorage.save_video (db : FileDB) (video_data : VideoData)
    (now : Int) : FileDB × YTVideo :=
  let video := mkVideoRow video_data now
  ({ db with infoFiles := dictInsert db.infoFiles video_data.id video },
    video)

/-- `FileStorage.save_channel`: an explicit no-op returning `None`. -/
def FileStorage.save_channel (db : FileDB) (channel_data : ChannelData) :
    FileDB × Option YTChannel :=
  (db, none)

/-- `FileStorage.save_playlist`: an explicit no-op returning `None`; it
never raises, whatever `channel_id` holds.  The `Except` mirrors the
sqlite signature for comparison. -/
def FileStorage.save_playlist (db : FileDB)
    (playlist_data : PlaylistData) :
    Except String (FileDB × Option YTPlaylist) :=
  .ok (db, none)

/-- `FileStorage.save_comments(comments, video_id)`: builds the batch's
records (stamping `video_id` and `last_analyzed_at`) and writes them as the
new contents of `{video_id}_comments.json`, replacing whatever the file
held before. -/
def FileStorage.save_comments (db : FileDB)
    (comments : List CommentInput) (video_id : String) (now : Int) :
    FileDB × List YTComment :=
  let saved_comments :=
    comments.map (fun comment_data => mkCommentRow comment_data video_id now)
  ({ db with
      commentsFiles := dictInsert db.commentsFiles video_id saved_comments },
    saved_comments)

/-- `FileStorage.get_video_comments`: parse `{video_id}_comments.json`,
empty when the file does not exist. -/
def FileStorage.get_video_comments (db : FileDB) (video_id : String) :
    List YTComment :=
  (lookupKey db.commentsFiles video_id).getD []

/-! ## StorageFactory (src/storage/storage_factory.py)

The registry maps a lowercased backend name to a constructor.  Constructors
take the keyword-argument record `Cfg` and produce a backend `B`. -/

/-- Python `str.lower()` (ASCII case folding, applied characterwise; written
over the character list so that it reduces definitionally). -/
def pyLower (s : String) : String :=
  ⟨s.data.map Char.toLower⟩

section Factory

variable {Cfg : Type u} {B : Type v}

/-- `StorageFactory.register_storage_type(storage_type, storage_class)`:
add or replace the entry under the lowercased name. -/
def StorageFactory.register_storage_type
    (registry : List (String × (Cfg → B))) (storage_type : String)
    (storage_class : Cfg → B) : List (String × (Cfg → B)) :=
  dictInsert registry (pyLower storage_type) storage_class

/-- The `ValueError` message for an unregistered name: it interpolates the
join of every currently registered name. -/
def StorageFactory.unknownTypeMsg (registry : List (String × (Cfg → B)))
    (storage_type : String) : String :=
  "Unknown storage type: " ++ storage_type ++ ". Registered types: "
    ++ String.intercalate ", " (registry.map Prod.fst)

/-- `StorageFactory.create_storage(storage_type, **kwargs)` (equivalently
`StorageFactory.__init__`): look the lowercased name up in the registry and
instantiate, else raise `ValueError` listing the registered names. -/
def StorageFactory.create_storage (registry : List (String × (Cfg → B)))
    (storage_type : String) (kwargs : Cfg) : Except String B :=
  match lookupKey registry (pyLower storage_type) with
  | some storage_class => .ok (storage_class kwargs)
  | none => .error (StorageFactory.unknownTypeMsg registry storage_type)

end Factory

/-! ## CommentAnalysisTask (src/youtube_analyzer/comment_analysis_task.py)

A task run is a sequence of four stages over the storage state.  The
external collaborators (video metadata fetch, comments fetch, sentiment
scoring) are an environment of `Except`-valued calls; `datetime.now` is the
parameter `now`.  Storage writes go to the sqlite backend model. -/

/-- The fetched video object (`YouTubeVideo`) fields the task reads;
`publish_date` is already parsed to a timestamp. -/
structure VideoMeta where
  id : String
  title : String
  description : String
  publish_date : Int
  channel_id : String
  channel_title : String
  view_count : Int
  like_count : Int
  comment_count : Int
  deriving Repr, DecidableEq

/-- One element of `SentimentAnalyzer.analyze_batch`'s result. -/
structure SentimentOut where
  sentiment : String
  score : Int
  deriving Repr, DecidableEq

/-- The external collaborators of one task. -/
structure TaskEnv where
  get_video : Except String VideoMeta
  get_comments : Except String (List CommentInput)
  analyze_batch : List String → Except String (List SentimentOut)

/-- The `channel_data` dictionary `_fetch_video_data` builds from the
fetched video (every optional field `None`). -/
def channelDataOf (video : VideoMeta) : ChannelData :=
  { id := video.channel_id
    name := video.channel_title
    custom_url := none
    subscriber_count := none
    video_count := none
    view_count := none
    published_at := none
    country := none
    uploads_playlist_id := none }

/-- The `video_data` dictionary `_fetch_video_data` builds from the fetched
video. -/
def videoDataOf (video : VideoMeta) : VideoData :=
  { id := video.id
    title := video.title
    description := video.description
    published_at := video.publish_date
    channel_id := video.channel_id
    view_count := video.view_count
    like_count := video.like_count
    comment_count := video.comment_count }

/-- `CommentAnalysisTask._fetch_video_data`: fetch the metadata; on
success and with saving enabled, save the channel then the video.  Any
error is logged and re-raised unchanged (`raise`), so a fetch failure
leaves the state untouched — the save calls sit after the fetch. -/
def CommentAnalysisTask.fetch_video_data (env : TaskEnv) (save : Bool)
    (now : Int) (db : SQLiteDB) : Except String (VideoMeta × SQLiteDB) :=
  match env.get_video with
  | .error e => .error e
  | .ok video =>
    if save then
      let db1 := (SQLiteStorage.save_channel db (channelDataOf video)).1
      .ok (video, (SQLiteStorage.save_video db1 (videoDataOf video) now).1)
    else .ok (video, db)

/-- `CommentAnalysisTask._fetch_comments`: a failure anywhere in the stage
is caught, the comment list becomes empty and the task continues; on
success with saving enabled and a nonempty list, the batch is saved. -/
def CommentAnalysisTask.fetch_comments (env : TaskEnv) (save : Bool)
    (now : Int) (video_id : String) (db : SQLiteDB) :
    List CommentInput × SQLiteDB :=
  match env.get_comments with
  | .error _ => ([], db)
  | .ok comments =>
    if save && !comments.isEmpty then
      (comments, (SQLiteStorage.save_comments db comments video_id now).1)
    else (comments, db)

/-- `CommentAnalysisTask._analyze_sentiment`: skip silently when there are
no comments; otherwise score the batch, pair result `i` with comment `i`
(an out-of-range index would raise and be caught, emptying the results),
and save when enabled. -/
def CommentAnalysisTask.analyze_sentiment (env : TaskEnv) (save : Bool)
    (now : Int) (comments : List CommentInput) (db : SQLiteDB) :
    List SentimentInput × SQLiteDB :=
  if comments.isEmpty then ([], db)
  else
    match env.analyze_batch (comments.map (fun c => c.text)) with
    | .error _ => ([], db)
    | .ok analysis_results =>
      if comments.length < analysis_results.length then ([], db)
      else
        let sentiment_results :=
          (comments.zip analysis_results).map
            (fun p =>
              ({ comment_id := p.1.comment_id
                 label := p.2.sentiment
                 score := p.2.score } : SentimentInput))
        if save then
          (sentiment_results,
            (SQLiteStorage.save_sentiment_results db sentiment_results
                now).1)
        else (sentiment_results, db)

/-- The label histogram of `_prepare_results` (a Python dict counting
`result["label"]`). -/
def countLabels (sentiment_results : List SentimentInput) :
    List (String × Nat) :=
  sentiment_results.foldl
    (fun acc r => dictInsert acc r.label ((lookupKey acc r.label).getD 0 + 1))
    []

/-- The dictionary returned by `CommentAnalysisTask.run`. -/
structure TaskSummary where
  video_id : String
  video_title : String
  comment_count : Nat
  sentiment_summary : List (String × Nat)
  comments : List CommentInput
  sentiment_results : List SentimentInput
  deriving Repr, DecidableEq

/-- `CommentAnalysisTask._prepare_results`. -/
def CommentAnalysisTask.prepare_results (video : VideoMeta)
    (comments : List CommentInput)
    (sentiment_results : List SentimentInput) : TaskSummary :=
  { video_id := video.id
    video_title := video.title
    comment_count := comments.length
    sentiment_summary := countLabels sentiment_results
    comments := comments
    sentiment_results := sentiment_results }

/-- `CommentAnalysisTask.run`: the four stages in order; only a
metadata-fetch failure escapes, every later stage degrades in place.  The
pair carries the storage state alongside the outcome, since in Python the
storage mutations survive an escaping exception. -/
def CommentAnalysisTask.run (env : TaskEnv) (save : Bool) (now : Int)
    (db : SQLiteDB) : Except String TaskSummary × SQLiteDB :=
  match CommentAnalysisTask.fetch_video_data env save now db with
  | .error e => (.error e, db)
  | .ok (video, db1) =>
    let step2 := CommentAnalysisTask.fetch_comments env save now video.id db1
    let step3 :=
      CommentAnalysisTask.analyze_sentiment env save now step2.1 step2.2
    (.ok (CommentAnalysisTask.prepare_results video step2.1 step3.1),
      step3.2)

/-! ## YouTubeCommentAnalyzer.analyze_multiple_videos
(src/youtube_analyzer/yt_comment_analysis.py, lines 86-116)

Each id's task outcome is a value of `Except`; the thread pool yields the
futures in a completion order that is some permutation of the submission
list.  `future.result()` re-raises a task's error inside `try`, where it is
logged and skipped. -/

/-- The `as_completed` collection loop: keep each finished task's summary,
drop (after logging) each task that raised. -/
def YouTubeCommentAnalyzer.collect_results
    (task : String → Except String TaskSummary) :
    List String → List TaskSummary
  | [] => []
  | url :: rest =>
    match task url with
    | .ok result => result :: YouTubeCommentAnalyzer.collect_results task rest
    | .error _ => YouTubeCommentAnalyzer.collect_results task rest

/-- `YouTubeCommentAnalyzer.analyze_multiple_videos(urls_or_ids)`, given the
per-id task outcomes and the order in which the futures completed. -/
def YouTubeCommentAnalyzer.analyze_multiple_videos
    (task : String → Except String TaskSummary)
    (urls_or_ids completion_order : List String) : List TaskSummary :=
  if urls_or_ids.isEmpty then []
  else YouTubeCommentAnalyzer.collect_results task completion_order

/-! ## Claims -/

/-- C1: `YTVideo.needs_reanalysis` returns true when `last_analyzed_at` is
absent regardless of other fields; otherwise it returns true exactly when
the video's age in whole days is at most `force_recent_days` or the whole
days since the last analysis are at least `max_age_days` (both boundaries
inclusive, whole days by flooring the elapsed seconds). -/
theorem video_needs_reanalysis_spec (v : YTVideo)
    (now max_age_days force_recent_days : Int) :
    (v.last_analyzed_at = none →
      v.needs_reanalysis now max_age_days force_recent_days = true) ∧
    (∀ last, v.last_analyzed_at = some last →
      v.needs_reanalysis now max_age_days force_recent_days =
        (decide (timedeltaDays (now - v.published_at) ≤ force_recent_days)
          || decide (timedeltaDays (now - last) ≥ max_age_days))) := by
  constructor
  · intro h
    simp [YTVideo.needs_reanalysis, h]
  · intro last h
    simp only [YTVideo.needs_reanalysis, h]
    by_cases hage :
        timedeltaDays (now - v.published_at) ≤ force_recent_days
    · simp [hage]
    · simp [hage]

/-- C1 witness: a video published 100 days ago and last analyzed 29 days
ago with `max_age_days = 30`, `force_recent_days = 7` does not need
reanalysis; last analyzed 30 days ago it does (boundary inclusive); and a
never-analyzed video always does. -/
theorem video_needs_reanalysis_spec_witness :
    YTVideo.needs_reanalysis
      ⟨"v", "t", "d", -8640000, "ch", 0, 0, 0, some (-2505600)⟩ 0 30 7
      = false ∧
    YTVideo.needs_reanalysis
      ⟨"v", "t", "d", -8640000, "ch", 0, 0, 0, some (-2592000)⟩ 0 30 7
      = true ∧
    YTVideo.needs_reanalysis ⟨"v", "t", "d", -8640000, "ch", 0, 0, 0, none⟩
      0 30 7 = true := by
  refine ⟨?_, ?_, ?_⟩
  · have h := (video_needs_reanalysis_spec
      ⟨"v", "t", "d", -8640000, "ch", 0, 0, 0, some (-2505600)⟩ 0 30 7).2
      (-2505600) rfl
    rw [h]; decide
  · have h := (video_needs_reanalysis_spec
      ⟨"v", "t", "d", -8640000, "ch", 0, 0, 0, some (-2592000)⟩ 0 30 7).2
      (-2592000) rfl
    rw [h]; decide
  · exact (video_needs_reanalysis_spec
      ⟨"v", "t", "d", -8640000, "ch", 0, 0, 0, none⟩ 0 30 7).1 rfl

/-- C9: `YTComment.needs_reanalysis` does not return a bool in every case.
On a comment whose `last_analyzed_at` is present and whose `updated_at` is
absent, `self.updated_at and ...` short-circuits to `None`, so the method
returns `None` — not the `False` its own `-> bool` annotation, its
docstring, and the spec promise.  (It does return `bool true` whenever
`last_analyzed_at` is absent, and `bool (updated > last)` when both
timestamps are present.) -/
theorem comment_needs_reanalysis_returns_none :
    YTComment.needs_reanalysis
      ⟨"c1", "v1", "txt", "a", "aid", 0, none, none, some 0⟩ = PyRet.pyNone
    ∧ PyRet.pyNone ≠ PyRet.bool false
    ∧ YTComment.needs_reanalysis
      ⟨"c1", "v1", "txt", "a", "aid", 0, none, none, none⟩
        = PyRet.bool true
    ∧ YTComment.needs_reanalysis
      ⟨"c1", "v1", "txt", "a", "aid", 0, none, some 5, some 3⟩
        = PyRet.bool true
    ∧ YTComment.needs_reanalysis
      ⟨"c1", "v1", "txt", "a", "aid", 0, none, some 3, some 5⟩
        = PyRet.bool false := by
  refine ⟨rfl, ?_, rfl, by decide, by decide⟩
  intro h
  cases h

/-- C3: with saving enabled, a metadata-fetch failure aborts the task: the
error escapes `CommentAnalysisTask.run` unmodified and the storage state is
exactly as before the run — no channel, video, comment or sentiment row was
persisted. -/
theorem run_metadata_fetch_fatal (env : TaskEnv) (e : String) (now : Int)
    (db : SQLiteDB) (h : env.get_video = .error e) :
    CommentAnalysisTask.run env true now db = (.error e, db) := by
  unfold CommentAnalysisTask.run CommentAnalysisTask.fetch_video_data
  rw [h]

/-- C3 witness: a concrete environment whose metadata fetch raises; the
run propagates the same error and the empty database stays empty. -/
theorem run_metadata_fetch_fatal_witness :
    CommentAnalysisTask.run
      ⟨.error "quota exceeded", .ok [], fun _ => .ok []⟩ true 0
      SQLiteDB.empty
      = (.error "quota exceeded", SQLiteDB.empty) :=
  run_metadata_fetch_fatal ⟨.error "quota exceeded", .ok [], fun _ => .ok []⟩
    "quota exceeded" 0 SQLiteDB.empty rfl

/-- C6: with saving enabled, a comments-fetch failure is non-fatal:
`CommentAnalysisTask.run` still returns a summary (no exception escapes),
the summary reports zero comments, no sentiment results and an empty
sentiment histogram, and the video row saved by the metadata stage is still
retrievable from the final storage state. -/
theorem run_comments_fetch_degraded (env : TaskEnv) (video : VideoMeta)
    (e : String) (now : Int) (db : SQLiteDB)
    (hv : env.get_video = .ok video) (hc : env.get_comments = .error e) :
    ∃ final : SQLiteDB,
      CommentAnalysisTask.run env true now db =
        (.ok { video_id := video.id
               video_title := video.title
               comment_count := 0
               sentiment_summary := []
               comments := []
               sentiment_results := [] }, final) ∧
      SQLiteStorage.get_video final video.id
        = some (mkVideoRow (videoDataOf video) now) := by
  refine ⟨(SQLiteStorage.save_video
      (SQLiteStorage.save_channel db (channelDataOf video)).1
      (videoDataOf video) now).1, ?_, ?_⟩
  · have h1 : CommentAnalysisTask.fetch_video_data env true now db
        = .ok (video,
            (SQLiteStorage.save_video
              (SQLiteStorage.save_channel db (channelDataOf video)).1
              (videoDataOf video) now).1) := by
      unfold CommentAnalysisTask.fetch_video_data
      rw [hv]
      rfl
    have h2 : ∀ d : SQLiteDB,
        CommentAnalysisTask.fetch_comments env true now video.id d
          = ([], d) := by
      intro d
      unfold CommentAnalysisTask.fetch_comments
      rw [hc]
    have h3 : ∀ d : SQLiteDB,
        CommentAnalysisTask.analyze_sentiment env true now [] d
          = ([], d) := by
      intro d
      unfold CommentAnalysisTask.analyze_sentiment
      simp
    unfold CommentAnalysisTask.run
    rw [h1]
    dsimp only
    rw [h2]
    dsimp only
    rw [h3]
    rfl
  · exact lookupKey_dictInsert_self _ video.id _

/-- C6 witness: a concrete run whose comments fetch raises: the summary is
returned with zero comments and the saved video row survives. -/
theorem run_comments_fetch_degraded_witness :
    ∃ final : SQLiteDB,
      CommentAnalysisTask.run
        ⟨.ok ⟨"v1", "Title", "Desc", 100, "ch1", "Chan", 5, 2, 1⟩,
          .error "comments disabled", fun _ => .ok []⟩ true 7
        SQLiteDB.empty =
        (.ok { video_id := "v1"
               video_title := "Title"
               comment_count := 0
               sentiment_summary := []
               comments := []
               sentiment_results := [] }, final) ∧
      SQLiteStorage.get_video final "v1"
        = some (mkVideoRow
            (videoDataOf ⟨"v1", "Title", "Desc", 100, "ch1", "Chan", 5, 2, 1⟩)
            7) :=
  run_comments_fetch_degraded
    ⟨.ok ⟨"v1", "Title", "Desc", 100, "ch1", "Chan", 5, 2, 1⟩,
      .error "comments disabled", fun _ => .ok []⟩
    ⟨"v1", "Title", "Desc", 100, "ch1", "Chan", 5, 2, 1⟩
    "comments disabled" 7 SQLiteDB.empty rfl rfl

theorem collect_results_eq_filterMap
    (task : String → Except String TaskSummary) (order : List String) :
    YouTubeCommentAnalyzer.collect_results task order
      = order.filterMap (fun url => (task url).toOption) := by
  induction order with
  | nil => rfl
  | cons url rest ih =>
    unfold YouTubeCommentAnalyzer.collect_results
    cases h : task url with
    | ok r => simp [h, Except.toOption, ih]
    | error e => simp [h, Except.toOption, ih]

/-- C2: `analyze_multiple_videos` never lets a task's error escape — it is
a total function of the per-task outcomes — and whatever completion order
the pool produces, the result list is a permutation of the successful
summaries, one per succeeding id; in particular for ids `[v1, v2, v3]`
with `v2`'s task failing, the result has length 2 and holds exactly `v1`'s
and `v3`'s summaries. -/
theorem analyze_multiple_videos_isolates_failures
    (task : String → Except String TaskSummary)
    (urls_or_ids completion_order : List String)
    (hperm : completion_order.Perm urls_or_ids) :
    (YouTubeCommentAnalyzer.analyze_multiple_videos task urls_or_ids
        completion_order).Perm
      (urls_or_ids.filterMap (fun url => (task url).toOption)) ∧
    (∀ (s₁ s₃ : TaskSummary) (e : String),
      urls_or_ids = ["v1", "v2", "v3"] →
      task "v1" = .ok s₁ → task "v2" = .error e → task "v3" = .ok s₃ →
      (YouTubeCommentAnalyzer.analyze_multiple_videos task urls_or_ids
          completion_order).length = 2 ∧
      (YouTubeCommentAnalyzer.analyze_multiple_videos task urls_or_ids
          completion_order).Perm [s₁, s₃]) := by
  have hmain : (YouTubeCommentAnalyzer.analyze_multiple_videos task
      urls_or_ids completion_order).Perm
        (urls_or_ids.filterMap (fun url => (task url).toOption)) := by
    unfold YouTubeCommentAnalyzer.analyze_multiple_videos
    by_cases hnil : urls_or_ids.isEmpty
    · have : urls_or_ids = [] := List.isEmpty_iff.mp hnil
      subst this
      simp
    · simp only [hnil, Bool.false_eq_true, if_neg, not_false_iff]
      rw [collect_results_eq_filterMap]
      exact hperm.filterMap _
  refine ⟨hmain, ?_⟩
  intro s₁ s₃ e hurls h1 h2 h3
  subst hurls
  have hfm : (["v1", "v2", "v3"].filterMap
      (fun url => (task url).toOption)) = [s₁, s₃] := by
    simp [List.filterMap, h1, h2, h3, Except.toOption]
  rw [hfm] at hmain
  exact ⟨by rw [hmain.length_eq]; rfl, hmain⟩

/-- C2 witness: a concrete dispatch of `["v1", "v2", "v3"]` whose `v2`
task fails, collected in a completion order differing from submission
order: the result holds exactly the two successful summaries. -/
theorem analyze_multiple_videos_isolates_failures_witness :
    (YouTubeCommentAnalyzer.analyze_multiple_videos
        (fun url =>
          if url = "v1" then
            .ok ⟨"v1", "a", 0, [], [], []⟩
          else if url = "v3" then
            .ok ⟨"v3", "c", 0, [], [], []⟩
          else .error "fetch failed")
        ["v1", "v2", "v3"] ["v2", "v3", "v1"]).length = 2 ∧
    (YouTubeCommentAnalyzer.analyze_multiple_videos
        (fun url =>
          if url = "v1" then
            .ok ⟨"v1", "a", 0, [], [], []⟩
          else if url = "v3" then
            .ok ⟨"v3", "c", 0, [], [], []⟩
          else .error "fetch failed")
        ["v1", "v2", "v3"] ["v2", "v3", "v1"]).Perm
      [⟨"v1", "a", 0, [], [], []⟩, ⟨"v3", "c", 0, [], [], []⟩] :=
  (analyze_multiple_videos_isolates_failures
    (fun url =>
      if url = "v1" then
        .ok ⟨"v1", "a", 0, [], [], []⟩
      else if url = "v3" then
        .ok ⟨"v3", "c", 0, [], [], []⟩
      else .error "fetch failed")
    ["v1", "v2", "v3"] ["v2", "v3", "v1"] (by decide)).2
    ⟨"v1", "a", 0, [], [], []⟩ ⟨"v3", "c", 0, [], [], []⟩ "fetch failed"
    rfl rfl rfl rfl

/-- C7: `register_storage_type` adds or replaces the entry under the
lowercased name and touches no other entry; `create_storage` with an
unregistered name fails with the `ValueError` whose message interpolates
the join of every currently registered name, and with a registered name it
invokes that constructor on the supplied keyword arguments. -/
theorem storage_factory_registry_spec (Cfg : Type u) (B : Type v)
    (registry : List (String × (Cfg → B))) (name : String)
    (ctor : Cfg → B) (kwargs : Cfg) :
    (lookupKey
        (StorageFactory.register_storage_type registry name ctor)
        (pyLower name) = some ctor) ∧
    (∀ other, other ≠ (pyLower name) →
      lookupKey (StorageFactory.register_storage_type registry name ctor)
          other
        = lookupKey registry other) ∧
    (lookupKey registry (pyLower name) = none →
      StorageFactory.create_storage registry name kwargs
        = .error ("Unknown storage type: " ++ name
            ++ ". Registered types: "
            ++ String.intercalate ", " (registry.map Prod.fst))) ∧
    (∀ c, lookupKey registry (pyLower name) = some c →
      StorageFactory.create_storage registry name kwargs = .ok (c kwargs)) := by
  refine ⟨?_, ?_, ?_, ?_⟩
  · exact lookupKey_dictInsert_self registry (pyLower name) ctor
  · intro other hne
    exact lookupKey_dictInsert_ne registry (pyLower name) other ctor hne
  · intro hnone
    unfold StorageFactory.create_storage
    rw [hnone]
    rfl
  · intro c hc
    unfold StorageFactory.create_storage
    rw [hc]

/-- C7 witness: registering `File` stores it under `file` and leaves
`sqlite` untouched; creating an unregistered backend fails with the
message listing `file, sqlite`; creating `SQLite` dispatches to the
registered constructor. -/
theorem storage_factory_registry_spec_witness :
    (lookupKey
        (StorageFactory.register_storage_type
          [("file", fun n : Nat => n), ("sqlite", fun n : Nat => n + 1)]
          "File" (fun n : Nat => n + 2))
        "file" = some (fun n : Nat => n + 2)) ∧
    (StorageFactory.create_storage
        [("file", fun n : Nat => n), ("sqlite", fun n : Nat => n + 1)]
        "mongo" 0
      = .error
          "Unknown storage type: mongo. Registered types: file, sqlite") ∧
    (StorageFactory.create_storage
        [("file", fun n : Nat => n), ("sqlite", fun n : Nat => n + 1)]
        "SQLite" 41
      = .ok 42) := by
  refine ⟨?_, ?_, ?_⟩
  · exact (storage_factory_registry_spec Nat Nat
      [("file", fun n => n), ("sqlite", fun n => n + 1)] "File"
      (fun n => n + 2) 0).1
  · have h := (storage_factory_registry_spec Nat Nat
      [("file", fun n => n), ("sqlite", fun n => n + 1)] "mongo"
      (fun n => n) 0).2.2.1 rfl
    rw [h]
    rfl
  · have h := (storage_factory_registry_spec Nat Nat
      [("file", fun n => n), ("sqlite", fun n => n + 1)] "SQLite"
      (fun n => n) 41).2.2.2 (fun n => n + 1) rfl
    rw [h]

theorem add_to_cache_at_capacity {K : Type u} {V : Type v} [DecidableEq K]
    (d : List (K × V)) (k : K) (v : V) (max_cache_items : Nat)
    (hfull : d.length ≥ max_cache_items) :
    add_to_cache true max_cache_items (some d) k v
      = some (dictInsert (d.drop 1) k v) := by
  unfold add_to_cache
  simp [hfull]

theorem add_to_cache_below_capacity {K : Type u} {V : Type v}
    [DecidableEq K] (d : List (K × V)) (k : K) (v : V)
    (max_cache_items : Nat) (hroom : d.length < max_cache_items) :
    add_to_cache true max_cache_items (some d) k v
      = some (dictInsert d k v) := by
  unfold add_to_cache
  simp [Nat.not_le.mpr hroom]

theorem cacheRun_length_le {K : Type u} {V : Type v} [DecidableEq K]
    (max_cache_items : Nat) (hmax : 1 ≤ max_cache_items)
    (ops : List (K × V)) (start : List (K × V))
    (hs : start.length ≤ max_cache_items) :
    (cacheRun max_cache_items start ops).length ≤ max_cache_items := by
  induction ops generalizing start with
  | nil => exact hs
  | cons op rest ih =>
    obtain ⟨k, v⟩ := op
    have hstep : ∀ d' : List (K × V),
        add_to_cache true max_cache_items (some start) k v = some d' →
        d'.length ≤ max_cache_items := by
      intro d' hd'
      by_cases hfull : start.length ≥ max_cache_items
      · rw [add_to_cache_at_capacity start k v max_cache_items hfull] at hd'
        cases hd'
        calc (dictInsert (start.drop 1) k v).length
            ≤ (start.drop 1).length + 1 := length_dictInsert_le _ k v
          _ ≤ max_cache_items := by
              rw [List.length_drop]
              omega
      · rw [add_to_cache_below_capacity start k v max_cache_items
          (Nat.not_le.mp hfull)] at hd'
        cases hd'
        calc (dictInsert start k v).length
            ≤ start.length + 1 := length_dictInsert_le _ k v
          _ ≤ max_cache_items := by omega
    by_cases hfull : start.length ≥ max_cache_items
    · have h := add_to_cache_at_capacity start k v max_cache_items hfull
      have : cacheRun max_cache_items start ((k, v) :: rest)
          = cacheRun max_cache_items (dictInsert (start.drop 1) k v) rest := by
        unfold cacheRun
        rw [List.foldl_cons, h]
        rfl
      rw [this]
      exact ih _ (hstep _ h)
    · have h := add_to_cache_below_capacity start k v max_cache_items
        (Nat.not_le.mp hfull)
      have : cacheRun max_cache_items start ((k, v) :: rest)
          = cacheRun max_cache_items (dictInsert start k v) rest := by
        unfold cacheRun
        rw [List.foldl_cons, h]
        rfl
      rw [this]
      exact ih _ (hstep _ h)

/-- C8: FIFO eviction.  When `_add_to_cache` inserts into a cache that is
at capacity, the least-recently-inserted entry (the dict's first key — not
a least-recently-used one) is deleted before the new entry is stored, the
new key is present afterwards, and every other entry is untouched; with
capacity 2, inserting `a, b, c` in order leaves exactly `{b, c}` present
and `a` evicted. -/
theorem add_to_cache_fifo_eviction :
    (∀ (V : Type u) (k₀ : String) (v₀ : V) (rest : List (String × V))
      (k : String) (v : V) (max_cache_items : Nat),
      1 ≤ max_cache_items →
      ((k₀, v₀) :: rest).length = max_cache_items →
      keysNodup ((k₀, v₀) :: rest) →
      ∃ d', add_to_cache true max_cache_items (some ((k₀, v₀) :: rest)) k v
          = some d' ∧
        (k₀ ≠ k → lookupKey d' k₀ = none) ∧
        lookupKey d' k = some v ∧
        (∀ k', k' ≠ k → k' ≠ k₀ →
          lookupKey d' k' = lookupKey ((k₀, v₀) :: rest) k')) ∧
    cacheRun 2 [] [("a", 1), ("b", 2), ("c", 3)] = [("b", 2), ("c", 3)] ∧
    lookupKey (cacheRun 2 [] [("a", 1), ("b", 2), ("c", 3)]) "a" = none := by
  refine ⟨?_, by decide, by decide⟩
  intro V k₀ v₀ rest k v max_cache_items hmax hlen hnodup
  have hfull : ((k₀, v₀) :: rest).length ≥ max_cache_items := hlen.ge
  refine ⟨dictInsert rest k v,
    add_to_cache_at_capacity _ k v max_cache_items hfull, ?_, ?_, ?_⟩
  · intro hne
    rw [lookupKey_dictInsert_ne rest k k₀ v hne]
    exact (lookupKey_eq_none_iff rest k₀).mpr
      (not_hasKey_of_nodup_cons k₀ v₀ rest hnodup)
  · exact lookupKey_dictInsert_self rest k v
  · intro k' hk hk₀
    rw [lookupKey_dictInsert_ne rest k k' v hk]
    have : ¬ k₀ = k' := fun hh => hk₀ hh.symm
    simp [lookupKey, this]

/-- C8 witness: a concrete full cache `[x ↦ 1, y ↦ 2]` with capacity 2
receiving `z`: the oldest key `x` is evicted, `z` is present, `y` is
untouched. -/
theorem add_to_cache_fifo_eviction_witness :
    ∃ d', add_to_cache true 2 (some [("x", 1), ("y", 2)]) "z" 3 = some d' ∧
      lookupKey d' "x" = none ∧
      lookupKey d' "z" = some 3 ∧
      lookupKey d' "y" = some 2 := by
  obtain ⟨d', hev, hold, hnew, hrest⟩ :=
    add_to_cache_fifo_eviction.{0}.1 Nat "x" 1 [("y", 2)] "z" 3 2
      (by decide) (by decide) (by unfold keysNodup; decide)
  exact ⟨d', hev, hold (by decide), hnew, by
    rw [hrest "y" (by decide) (by decide)]; decide⟩

/-- C10: starting from an empty cache, any sequence of `_add_to_cache`
insertions keeps the cache size at most `max_cache_items` (for
`max_cache_items ≥ 1`); and an insertion into a cache exactly at capacity
removes exactly one entry — the oldest-inserted key — even when the
inserted key is already present, in which case the size drops to
`max_cache_items - 1`. -/
theorem add_to_cache_size_invariant :
    (∀ (V : Type u) (max_cache_items : Nat), 1 ≤ max_cache_items →
      ∀ ops : List (String × V),
        (cacheRun max_cache_items ([] : List (String × V)) ops).length
          ≤ max_cache_items) ∧
    (∀ (V : Type u) (k₀ : String) (v₀ : V) (rest : List (String × V))
      (k : String) (v : V) (max_cache_items : Nat),
      1 ≤ max_cache_items →
      ((k₀, v₀) :: rest).length = max_cache_items →
      keysNodup ((k₀, v₀) :: rest) →
      ∃ d', add_to_cache true max_cache_items (some ((k₀, v₀) :: rest)) k v
          = some d' ∧
        (∀ k', hasKey ((k₀, v₀) :: rest) k' → ¬ hasKey d' k' → k' = k₀) ∧
        (k ≠ k₀ → lookupKey d' k₀ = none) ∧
        (hasKey rest k → d'.length + 1 = max_cache_items) ∧
        (¬ hasKey ((k₀, v₀) :: rest) k →
          d'.length = max_cache_items)) := by
  constructor
  · intro V max_cache_items hmax ops
    exact cacheRun_length_le max_cache_items hmax ops [] (by simp)
  · intro V k₀ v₀ rest k v max_cache_items hmax hlen hnodup
    have hfull : ((k₀, v₀) :: rest).length ≥ max_cache_items := hlen.ge
    refine ⟨dictInsert rest k v,
      add_to_cache_at_capacity _ k v max_cache_items hfull, ?_, ?_, ?_, ?_⟩
    · intro k' hbefore hafter
      by_cases hk : k' = k
      · exfalso
        apply hafter
        unfold hasKey
        rw [hk, lookupKey_dictInsert_self rest k v]
        rfl
      · have habs : lookupKey rest k' = none := by
          rw [← lookupKey_dictInsert_ne rest k k' v hk]
          exact (lookupKey_eq_none_iff _ k').mpr hafter
        by_cases hk₀ : k₀ = k'
        · exact hk₀.symm
        · exfalso
          unfold hasKey at hbefore
          rw [show lookupKey ((k₀, v₀) :: rest) k' = lookupKey rest k' by
            simp [lookupKey, hk₀]] at hbefore
          rw [habs] at hbefore
          exact Bool.false_ne_true hbefore
    · intro hne
      rw [lookupKey_dictInsert_ne rest k k₀ v (fun hh => hne hh.symm)]
      exact (lookupKey_eq_none_iff rest k₀).mpr
        (not_hasKey_of_nodup_cons k₀ v₀ rest hnodup)
    · intro hmem
      rw [length_dictInsert_of_hasKey rest k v hmem]
      simpa using hlen
    · intro hnot
      have hk₀ : ¬ k₀ = k := by
        intro hh
        exact hnot (by simp [hasKey, lookupKey, hh])
      have hrest : ¬ hasKey rest k := by
        intro hc
        apply hnot
        unfold hasKey at hc ⊢
        simpa [lookupKey, hk₀] using hc
      rw [length_dictInsert_of_not_hasKey rest k v hrest]
      simpa using hlen

/-- C10 witness: four insertions through a capacity-2 cache stay within
bound, and inserting the already-present, non-oldest key `y` into the full
cache `[x ↦ 1, y ↦ 2]` still evicts the oldest key `x`, shrinking the
cache to one entry. -/
theorem add_to_cache_size_invariant_witness :
    (cacheRun 2 ([] : List (String × Nat))
        [("a", 1), ("b", 2), ("c", 3), ("b", 9)]).length ≤ 2 ∧
    ∃ d', add_to_cache true 2 (some [("x", 1), ("y", 2)]) "y" 9 = some d' ∧
      d'.length + 1 = 2 ∧ lookupKey d' "x" = none := by
  constructor
  · exact add_to_cache_size_invariant.{0}.1 Nat 2 (by decide)
      [("a", 1), ("b", 2), ("c", 3), ("b", 9)]
  · obtain ⟨d', hev, hrem, hold, hlen, hfree⟩ :=
      add_to_cache_size_invariant.{0}.2 Nat "x" 1 [("y", 2)] "y" 9 2
        (by decide) (by decide) (by unfold keysNodup; decide)
    exact ⟨d', hev, hlen (by decide), hold (by decide)⟩

/-- C4 counterexample: the claim quantifies over every storage backend, but
`FileStorage.save_playlist` with a `channel_id` matching no saved channel
does not fail at all — it returns successfully (Python `None`) with the
stored state unchanged, rather than raising a
ReferenceError/ConfigurationError. -/
theorem save_playlist_file_backend_no_error :
    FileStorage.save_playlist FileDB.empty
      ⟨"p1", none, some "missing", none, none⟩
      = .ok (FileDB.empty, none) := rfl

/-- C4 amended: only the sqlite backend enforces the reference: its
`save_playlist` raises `ValueError` — before anything is added to the
session — when the `channel_id` key is missing or names no previously
saved channel, so the stored state is unchanged and no playlist row was
written; the file backend's `save_playlist` is an explicit no-op that
never fails and writes nothing for any input. -/
theorem save_playlist_missing_channel (db : SQLiteDB) (pd : PlaylistData)
    (fdb : FileDB) :
    (pd.channel_id = none →
      SQLiteStorage.save_playlist db pd
        = .error "channel_id is required for saving a playlist") ∧
    (∀ cid, pd.channel_id = some cid → lookupKey db.channels cid = none →
      SQLiteStorage.save_playlist db pd
        = .error ("Channel with ID " ++ cid ++ " does not exist")) ∧
    FileStorage.save_playlist fdb pd = .ok (fdb, none) := by
  refine ⟨?_, ?_, rfl⟩
  · intro h
    unfold SQLiteStorage.save_playlist
    rw [h]
  · intro cid hcid hnone
    unfold SQLiteStorage.save_playlist
    rw [hcid]
    dsimp only
    rw [hnone]

/-- C4 witness: saving `{id: p1, channelId: missing}` against an empty
sqlite database fails with the channel-not-found error, while the file
backend accepts it as a no-op. -/
theorem save_playlist_missing_channel_witness :
    SQLiteStorage.save_playlist SQLiteDB.empty
        ⟨"p1", none, some "missing", none, none⟩
      = .error "Channel with ID missing does not exist" ∧
    FileStorage.save_playlist FileDB.empty
        ⟨"p1", none, some "missing", none, none⟩
      = .ok (FileDB.empty, none) := by
  have h := save_playlist_missing_channel SQLiteDB.empty
    ⟨"p1", none, some "missing", none, none⟩ FileDB.empty
  exact ⟨h.2.1 "missing" rfl rfl, h.2.2⟩

theorem mem_of_lookupKey {K : Type u} {V : Type v} [DecidableEq K]
    (d : List (K × V)) (k : K) (row : V)
    (h : lookupKey d k = some row) : (k, row) ∈ d := by
  induction d with
  | nil => simp [lookupKey] at h
  | cons p rest ih =>
    obtain ⟨k₀, v₀⟩ := p
    by_cases h₀ : k₀ = k
    · subst h₀
      have hv : v₀ = row := by simpa [lookupKey] using h
      subst hv
      exact List.mem_cons_self _ _
    · simp only [lookupKey, h₀, if_neg, not_false_iff] at h
      exact List.mem_cons_of_mem _ (ih h)

theorem save_comments_state (db : SQLiteDB) (batch : List CommentInput)
    (video_id : String) (now : Int) :
    (SQLiteStorage.save_comments db batch video_id now).1.comments
      = batch.foldl
          (fun m cd =>
            dictInsert m cd.comment_id (mkCommentRow cd video_id now))
          db.comments := by
  unfold SQLiteStorage.save_comments
  induction batch generalizing db with
  | nil => rfl
  | cons cd rest ih =>
    simp only [List.foldl_cons]
    exact ih { db with
      comments := dictInsert db.comments cd.comment_id
        (mkCommentRow cd video_id now) }

theorem lookup_save_comments_untouched (batch : List CommentInput)
    (m : List (String × YTComment)) (video_id : String) (now : Int)
    (cid : String) (h : ∀ cd, cd ∈ batch → cd.comment_id ≠ cid) :
    lookupKey
      (batch.foldl
        (fun m cd =>
          dictInsert m cd.comment_id (mkCommentRow cd video_id now)) m)
      cid = lookupKey m cid := by
  induction batch generalizing m with
  | nil => rfl
  | cons cd rest ih =>
    simp only [List.foldl_cons]
    rw [ih _ (fun cd' hmem => h cd' (List.mem_cons_of_mem _ hmem))]
    exact lookupKey_dictInsert_ne m cd.comment_id cid
      (mkCommentRow cd video_id now)
      (fun hh => h cd (List.mem_cons_self _ _) hh.symm)

theorem lookup_save_comments_batch (batch : List CommentInput)
    (m : List (String × YTComment)) (video_id : String) (now : Int)
    (k : String) (h : ∃ cd, cd ∈ batch ∧ cd.comment_id = k) :
    ∃ cd', cd' ∈ batch ∧ cd'.comment_id = k ∧
      lookupKey
        (batch.foldl
          (fun m cd =>
            dictInsert m cd.comment_id (mkCommentRow cd video_id now)) m)
        k = some (mkCommentRow cd' video_id now) := by
  induction batch generalizing m with
  | nil =>
    obtain ⟨cd, hmem, _⟩ := h
    simp at hmem
  | cons cd₀ rest ih =>
    by_cases hex : ∃ cd, cd ∈ rest ∧ cd.comment_id = k
    · obtain ⟨cd', hmem, hkey, hlook⟩ :=
        ih (dictInsert m cd₀.comment_id (mkCommentRow cd₀ video_id now)) hex
      refine ⟨cd', List.mem_cons_of_mem _ hmem, hkey, ?_⟩
      simpa [List.foldl_cons] using hlook
    · have hk₀ : cd₀.comment_id = k := by
        obtain ⟨cd, hmem, hkey⟩ := h
        rcases List.mem_cons.mp hmem with rfl | hmem'
        · exact hkey
        · exact absurd ⟨cd, hmem', hkey⟩ hex
      refine ⟨cd₀, List.mem_cons_self _ _, hk₀, ?_⟩
      simp only [List.foldl_cons]
      rw [lookup_save_comments_untouched rest _ video_id now k
        (fun cd hmem hkey => hex ⟨cd, hmem, hkey⟩)]
      rw [hk₀]
      exact lookupKey_dictInsert_self m k _

theorem save_comments_nodup (batch : List CommentInput)
    (m : List (String × YTComment)) (video_id : String) (now : Int)
    (h : keysNodup m) :
    keysNodup
      (batch.foldl
        (fun m cd =>
          dictInsert m cd.comment_id (mkCommentRow cd video_id now)) m) := by
  induction batch generalizing m with
  | nil => exact h
  | cons cd rest ih =>
    simp only [List.foldl_cons]
    exact ih _ (keysNodup_dictInsert m cd.comment_id _ h)

/-- C5 counterexample: the claim quantifies over every storage backend, but
`FileStorage.save_comments` rewrites the video's whole comments file with
just the new batch: after saving `[c1]` then `[c2]` for the same video,
`get_video_comments` returns only `c2` — the previously stored `c1`, absent
from the second batch, is no longer retrievable. -/
theorem file_save_comments_drops_previous :
    (FileStorage.get_video_comments
      (FileStorage.save_comments
        (FileStorage.save_comments FileDB.empty
          [⟨"c1", "first", "ann", "a1", 0, none, none⟩] "v" 10).1
        [⟨"c2", "second", "bob", "b1", 0, none, none⟩] "v" 20).1
      "v").map YTComment.comment_id = ["c2"] := by decide

/-- C5 amended: `SQLiteStorage.save_comments` honors the claim — it
upserts each batch entry by `comment_id`, stamping `video_id` and
`last_analyzed_at`, never introduces a duplicate key, and leaves every
comment whose id is outside the batch untouched and still retrievable via
`get_video_comments`.  `FileStorage.save_comments` stamps the same fields
and produces no duplicate, but replaces the video's entire stored comment
list with the new batch, so previously stored comments not in the batch
are no longer retrievable. -/
theorem save_comments_upsert (db : SQLiteDB) (batch : List CommentInput)
    (video_id : String) (now : Int) :
    (∀ cd, cd ∈ batch →
      ∃ row, lookupKey
          (SQLiteStorage.save_comments db batch video_id now).1.comments
          cd.comment_id = some row ∧
        row.video_id = video_id ∧ row.last_analyzed_at = some now) ∧
    (keysNodup db.comments →
      keysNodup
        (SQLiteStorage.save_comments db batch video_id now).1.comments) ∧
    (∀ cid row, lookupKey db.comments cid = some row →
      (∀ cd, cd ∈ batch → cd.comment_id ≠ cid) →
      lookupKey (SQLiteStorage.save_comments db batch video_id now).1.comments
          cid = some row ∧
      (row.video_id = video_id →
        row ∈ SQLiteStorage.get_video_comments
          (SQLiteStorage.save_comments db batch video_id now).1 video_id)) ∧
    (∀ fdb : FileDB,
      FileStorage.get_video_comments
          (FileStorage.save_comments fdb batch video_id now).1 video_id
        = batch.map (fun cd => mkCommentRow cd video_id now)) := by
  refine ⟨?_, ?_, ?_, ?_⟩
  · intro cd hmem
    rw [save_comments_state]
    obtain ⟨cd', _, hkey, hlook⟩ := lookup_save_comments_batch batch
      db.comments video_id now cd.comment_id ⟨cd, hmem, rfl⟩
    exact ⟨mkCommentRow cd' video_id now, hlook, rfl, rfl⟩
  · intro h
    rw [save_comments_state]
    exact save_comments_nodup batch db.comments video_id now h
  · intro cid row hlook hout
    have hpres : lookupKey
        (SQLiteStorage.save_comments db batch video_id now).1.comments cid
        = some row := by
      rw [save_comments_state]
      rw [lookup_save_comments_untouched batch db.comments video_id now cid
        hout]
      exact hlook
    refine ⟨hpres, ?_⟩
    intro hvid
    unfold SQLiteStorage.get_video_comments
    refine List.mem_map.mpr ⟨(cid, row), ?_, rfl⟩
    refine List.mem_filter.mpr ⟨mem_of_lookupKey _ cid row hpres, ?_⟩
    simp [hvid]
  · intro fdb
    unfold FileStorage.get_video_comments FileStorage.save_comments
    rw [lookupKey_dictInsert_self]
    rfl

/-- C5 witness: against a database already holding `c1` for video `v`,
saving the batch `[c2]` stamps `c2` and keeps `c1` retrievable (sqlite),
while the file backend's comments file for `v` afterwards holds exactly
the new batch. -/
theorem save_comments_upsert_witness :
    (∃ row, lookupKey
        (SQLiteStorage.save_comments
          { SQLiteDB.empty with
            comments := [("c1", mkCommentRow
              ⟨"c1", "first", "ann", "a1", 0, none, none⟩ "v" 10)] }
          [⟨"c2", "second", "bob", "b1", 0, none, none⟩] "v" 20).1.comments
        "c2" = some row ∧
      row.video_id = "v" ∧ row.last_analyzed_at = some 20) ∧
    lookupKey
        (SQLiteStorage.save_comments
          { SQLiteDB.empty with
            comments := [("c1", mkCommentRow
              ⟨"c1", "first", "ann", "a1", 0, none, none⟩ "v" 10)] }
          [⟨"c2", "second", "bob", "b1", 0, none, none⟩] "v" 20).1.comments
        "c1"
      = some (mkCommentRow ⟨"c1", "first", "ann", "a1", 0, none, none⟩
          "v" 10) ∧
    mkCommentRow ⟨"c1", "first", "ann", "a1", 0, none, none⟩ "v" 10
      ∈ SQLiteStorage.get_video_comments
        (SQLiteStorage.save_comments
          { SQLiteDB.empty with
            comments := [("c1", mkCommentRow
              ⟨"c1", "first", "ann", "a1", 0, none, none⟩ "v" 10)] }
          [⟨"c2", "second", "bob", "b1", 0, none, none⟩] "v" 20).1 "v" ∧
    FileStorage.get_video_comments
        (FileStorage.save_comments FileDB.empty
          [⟨"c2", "second", "bob", "b1", 0, none, none⟩] "v" 20).1 "v"
      = [mkCommentRow ⟨"c2", "second", "bob", "b1", 0, none, none⟩
          "v" 20] := by
  have h := save_comments_upsert
    { SQLiteDB.empty with
      comments := [("c1", mkCommentRow
        ⟨"c1", "first", "ann", "a1", 0, none, none⟩ "v" 10)] }
    [⟨"c2", "second", "bob", "b1", 0, none, none⟩] "v" 20
  have hold := h.2.2.1 "c1"
    (mkCommentRow ⟨"c1", "first", "ann", "a1", 0, none, none⟩ "v" 10)
    (by decide) (by decide)
  exact ⟨h.1 ⟨"c2", "second", "bob", "b1", 0, none, none⟩ (by decide),
    hold.1, hold.2 rfl, h.2.2.2 FileDB.empty⟩
